import Mathlib

/-!
Shallow embedding of `src/Project_Scripts/01_download_newscrawl.py`, the
concurrent CommonCrawl News WARC downloader, together with theorems checking
the specification's claims about it.

Modelling conventions:
* The local filesystem is an association list `FS` from paths to file
  contents (a file exists iff it has an entry).
* The network is an oracle `net : String → Nat → AttemptResult` giving, for a
  URL and the index of the attempt made against that URL within one call of
  `download_with_retries`, the outcome of that HTTP attempt:
  - `ok chunks`: 2xx response whose body streams completely, as chunks;
  - `errBeforeBody`: a `requests` error raised before any body byte is
    written locally (connection failure, timeout on connect, or a non-2xx
    status detected by `raise_for_status`) — the destination file is not
    opened;
  - `errMidBody chunks`: a `requests` error raised during `iter_content`
    after the listed chunks were already written to the (truncated) file.
* Sleeps are recorded as waited seconds, not performed.
* Exceptions are modelled in `Except`: a raised `RequestException` is the
  `.error` of one attempt; the `except` clause of the retry loop is the
  `match` that consumes it.
* The thread pool runs `download_warc_file` over the manifest entries with
  no shared mutable state other than the filesystem; the embedding runs them
  sequentially in manifest order, threading the filesystem.
* `gzip` decompression plus line-splitting/stripping of the manifest file is
  a third-party behaviour, abstracted as a `parseManifest` function argument.
-/

/-- Outcome of one HTTP attempt inside `download_with_retries`. -/
inductive AttemptResult where
  | ok (chunks : List String)
  | errBeforeBody
  | errMidBody (chunks : List String)
deriving DecidableEq, Repr

/-- The local filesystem: existing files and their contents. -/
abbrev FS := List (String × String)

/-- Does a file exist at `p` (Python `os.path.exists`)? -/
def fileExists (fs : FS) (p : String) : Bool :=
  (fs.lookup p).isSome

/-- Content of the file at `p`, empty if absent. -/
def getFileContent (fs : FS) (p : String) : String :=
  (fs.lookup p).getD ""

/-- Write (create or truncate-and-replace) the file at `p`. -/
def setFile (fs : FS) (p : String) (c : String) : FS :=
  match fs with
  | [] => [(p, c)]
  | e :: rest => if e.1 = p then (p, c) :: rest else e :: setFile rest p c

/-- Delete the file at `p` (Python `os.remove`). -/
def removeFile (fs : FS) (p : String) : FS :=
  fs.filter (fun e => e.1 ≠ p)

/-- One body of the `try` block of `download_with_retries`: `requests.get`,
`raise_for_status`, then open the destination `'wb'` (truncating) and write
the streamed chunks.  Returns the filesystem after the attempt and either
`.ok` (the attempt completed) or `.error` (a `RequestException` was raised;
for `errMidBody` the truncated file holding the partial chunks remains). -/
def attemptDownload (r : AttemptResult) (localPath : String) (fs : FS) :
    FS × Except Unit Unit :=
  match r with
  | .ok chunks => (setFile fs localPath (String.join chunks), .ok ())
  | .errBeforeBody => (fs, .error ())
  | .errMidBody chunks => (setFile fs localPath (String.join chunks), .error ())

/-- Result of `download_with_retries`: the returned boolean, the filesystem,
how many HTTP attempts were made, and the total seconds slept. -/
structure RetryResult where
  success : Bool
  fs : FS
  attemptsMade : Nat
  totalWait : Nat
deriving DecidableEq, Repr

/-- The `for attempt in range(retries)` loop of `download_with_retries`,
in the `Except` monad so that an uncaught exception would surface as
`.error`.  Arguments after the url/path: remaining iterations, filesystem,
current `wait_time`, attempts made so far, seconds waited so far.  The
`match` on the attempt's `Except` is the `except RequestException` clause:
on failure it sleeps `wait_time`, doubles it, and loops. -/
def downloadGoE (net : String → Nat → AttemptResult) (url localPath : String) :
    Nat → FS → Nat → Nat → Nat → Except Unit RetryResult
  | 0, fs, _, made, waited => .ok ⟨false, fs, made, waited⟩
  | n + 1, fs, waitTime, made, waited =>
    match attemptDownload (net url made) localPath fs with
    | (fs', .ok _) => .ok ⟨true, fs', made + 1, waited⟩
    | (fs', .error _) =>
        downloadGoE net url localPath n fs' (waitTime * 2) (made + 1)
          (waited + waitTime)

/-- The same retry loop as a total function (the value `download_with_retries`
actually computes, since its `except` clause catches every modelled error). -/
def downloadGo (net : String → Nat → AttemptResult) (url localPath : String) :
    Nat → FS → Nat → Nat → Nat → RetryResult
  | 0, fs, _, made, waited => ⟨false, fs, made, waited⟩
  | n + 1, fs, waitTime, made, waited =>
    match attemptDownload (net url made) localPath fs with
    | (fs', .ok _) => ⟨true, fs', made + 1, waited⟩
    | (fs', .error _) =>
        downloadGo net url localPath n fs' (waitTime * 2) (made + 1)
          (waited + waitTime)

/-- `download_with_retries(url, local_path, retries=5, backoff=10)`. -/
def downloadWithRetries (net : String → Nat → AttemptResult)
    (url localPath : String) (fs : FS)
    (retries : Nat := 5) (backoff : Nat := 10) : RetryResult :=
  downloadGo net url localPath retries fs backoff 0 0

/-- Outcome of `download_warc_file` for one manifest entry. -/
inductive Outcome where
  | skipped
  | success
  | failed
deriving DecidableEq, Repr

/-- `os.path.basename` for the forward-slash remote paths: the segment after
the last `/`. -/
def basename (p : String) : String :=
  ((p.toList.reverse.takeWhile (fun c => c ≠ '/')).reverse).asString

/-- `os.path.join` of a directory and a filename. -/
def joinPath (dir name : String) : String :=
  dir ++ "/" ++ name

/-- Result of one `download_warc_file` call: the outcome, the Python return
value (always `None`, i.e. `()`), the filesystem, and how many HTTP attempts
were made on the network. -/
structure FetchResult where
  outcome : Outcome
  ret : Unit
  fs : FS
  netCalls : Nat
deriving DecidableEq, Repr

/-- `download_warc_file(path)`: derive the local filename from the remote
path's basename; if it exists, skip without touching the network, else call
`download_with_retries` with the defaults. -/
def downloadWarcFile (net : String → Nat → AttemptResult)
    (folder durl path : String) (fs : FS) : FetchResult :=
  let url := durl ++ path
  let localFilename := joinPath folder (basename path)
  if fileExists fs localFilename then ⟨.skipped, (), fs, 0⟩
  else
    let r := downloadWithRetries net url localFilename fs 5 10
    ⟨if r.success then .success else .failed, (), r.fs, r.attemptsMade⟩

/-- `download_warc_file` in the `Except` monad: an exception escaping the
retry loop would propagate to the caller as `.error`. -/
def downloadWarcFileE (net : String → Nat → AttemptResult)
    (folder durl path : String) (fs : FS) : Except Unit FetchResult :=
  let url := durl ++ path
  let localFilename := joinPath folder (basename path)
  if fileExists fs localFilename then .ok ⟨.skipped, (), fs, 0⟩
  else
    match downloadGoE net url localFilename 5 fs 10 0 0 with
    | .ok r => .ok ⟨if r.success then .success else .failed, (), r.fs, r.attemptsMade⟩
    | .error e => .error e

/-- Result of the batch over the manifest entries: outcome per entry, the
Python value returned by each `download_warc_file` call (collected by
`list(executor.map(...))`), the filesystem, and the total HTTP attempts. -/
structure BatchResult where
  outcomes : List Outcome
  retValues : List Unit
  fs : FS
  netCalls : Nat
deriving DecidableEq, Repr

/-- `executor.map(download_warc_file, file_paths)`: every entry is processed
to completion; the filesystem is the only shared state. -/
def downloadBatch (net : String → Nat → AttemptResult) (folder durl : String) :
    List String → FS → BatchResult
  | [], fs => ⟨[], [], fs, 0⟩
  | p :: ps, fs =>
    let r := downloadWarcFile net folder durl p fs
    let rest := downloadBatch net folder durl ps r.fs
    ⟨r.outcome :: rest.outcomes, r.ret :: rest.retValues, rest.fs,
      r.netCalls + rest.netCalls⟩

/-- The `YEAR_MONTH` validation of lines 50–52:
`not YEAR_MONTH or len(YEAR_MONTH) != 7 or YEAR_MONTH[4] != '/'` rejects. -/
def validYearMonth (s : String) : Bool :=
  !(s.toList.isEmpty || s.toList.length ≠ 7 || s.toList.getD 4 ' ' ≠ '/')

/-- Python's `YEAR_MONTH.replace("/", "-")` (single-character pattern). -/
def pyReplaceChar (s : String) (a b : Char) : String :=
  (s.toList.map (fun c => if c = a then b else c)).asString

/-- Python's `xs[:k]` for an `int` bound `k` (negative counts from the end). -/
def pySliceTo (xs : List String) (k : Int) : List String :=
  if 0 ≤ k then xs.take k.toNat else xs.take (xs.length - (-k).toNat)

/-- Lines 96–98: `if args.max_files: file_paths = file_paths[:args.max_files]`.
`None` and `0` are falsy, so only a nonzero bound truncates. -/
def truncatePaths (maxFiles : Option Int) (paths : List String) : List String :=
  match maxFiles with
  | none => paths
  | some k => if k = 0 then paths else pySliceTo paths k

def BASE_URL : String := "https://data.commoncrawl.org/crawl-data/CC-NEWS/"

def DOWNLOAD_URL : String := "https://data.commoncrawl.org/"

/-- `WARC_PATHS_FILE = f"{YEAR_MONTH}/warc.paths.gz"`. -/
def warcPathsFileOf (yearMonth : String) : String :=
  yearMonth ++ "/warc.paths.gz"

/-- `DOWNLOAD_FOLDER`: the `--download-folder` override, or the fixed base
joined with the period with slashes replaced by hyphens. -/
def downloadFolderOf (yearMonth : String) (downloadFolderArg : Option String) :
    String :=
  match downloadFolderArg with
  | some f => f
  | none => joinPath "D:\\CommonCrawl\\news" (pyReplaceChar yearMonth '/' '-')

/-- `warc_paths_local = os.path.join(DOWNLOAD_FOLDER, os.path.basename(WARC_PATHS_FILE))`. -/
def warcPathsLocalOf (yearMonth : String) (downloadFolderArg : Option String) :
    String :=
  joinPath (downloadFolderOf yearMonth downloadFolderArg)
    (basename (warcPathsFileOf yearMonth))

/-- Result of acquiring the local manifest file. -/
structure ManifestFetch where
  ok : Bool
  fs : FS
  calls : Nat
deriving DecidableEq, Repr

/-- Lines 85–89: if the local manifest is absent, fetch it with retries;
records whether a usable manifest is now present, the filesystem, and how
many HTTP attempts were spent on the manifest. -/
def mainFetchManifest (net : String → Nat → AttemptResult)
    (yearMonth : String) (downloadFolderArg : Option String) (fs : FS) :
    ManifestFetch :=
  let wpl := warcPathsLocalOf yearMonth downloadFolderArg
  if fileExists fs wpl then ⟨true, fs, 0⟩
  else
    let r := downloadWithRetries net (BASE_URL ++ warcPathsFileOf yearMonth)
      wpl fs 5 10
    ⟨r.success, r.fs, r.attemptsMade⟩

/-- Observable result of one program invocation. -/
structure MainResult where
  exitCode : Nat
  fs : FS
  outcomes : List Outcome
  attemptedPaths : List String
  manifestNetCalls : Nat
  objectNetCalls : Nat
deriving DecidableEq, Repr

/-- The whole script, from argument validation to cleanup.  `parseManifest`
abstracts `gzip.open` + per-line `strip` over the manifest file's bytes. -/
def mainRun (net : String → Nat → AttemptResult)
    (parseManifest : String → List String) (yearMonth : String)
    (maxFiles : Option Int) (downloadFolderArg : Option String) (fs : FS) :
    MainResult :=
  if validYearMonth yearMonth then
    let m := mainFetchManifest net yearMonth downloadFolderArg fs
    if m.ok then
      let wpl := warcPathsLocalOf yearMonth downloadFolderArg
      let filePaths := parseManifest (getFileContent m.fs wpl)
      let attempted := truncatePaths maxFiles filePaths
      let b := downloadBatch net (downloadFolderOf yearMonth downloadFolderArg)
        DOWNLOAD_URL attempted m.fs
      let finalFs := if fileExists b.fs wpl then removeFile b.fs wpl else b.fs
      ⟨0, finalFs, b.outcomes, attempted, m.calls, b.netCalls⟩
    else ⟨1, m.fs, [], [], m.calls, 0⟩
  else ⟨1, fs, [], [], 0, 0⟩

/-- Does this attempt fail (raise inside the `try` block)? -/
def isFailAttempt (r : AttemptResult) : Bool :=
  match r with
  | .ok _ => false
  | .errBeforeBody => true
  | .errMidBody _ => true

/-! ### Helper lemmas -/

theorem lookup_removeFile (fs : FS) (p : String) :
    (removeFile fs p).lookup p = none := by
  induction fs with
  | nil => rfl
  | cons e rest ih =>
    obtain ⟨k, v⟩ := e
    by_cases h : k = p
    · simpa [removeFile, h] using ih
    · have hb : (p == k) = false := beq_eq_false_iff_ne.mpr (Ne.symm h)
      simpa [removeFile, h, List.lookup, hb] using ih

theorem fileExists_removeFile (fs : FS) (p : String) :
    fileExists (removeFile fs p) p = false := by
  simp [fileExists, lookup_removeFile]

theorem attemptDownload_fail_snd (r : AttemptResult) (p : String) (fs : FS)
    (h : isFailAttempt r = true) :
    (attemptDownload r p fs).2 = .error () := by
  cases r with
  | ok chunks => simp [isFailAttempt] at h
  | errBeforeBody => rfl
  | errMidBody chunks => rfl

theorem downloadGoE_eq_ok (net : String → Nat → AttemptResult)
    (url path : String) (n : Nat) (fs : FS) (w made waited : Nat) :
    downloadGoE net url path n fs w made waited =
      .ok (downloadGo net url path n fs w made waited) := by
  induction n generalizing fs w made waited with
  | zero => rfl
  | succ n ih =>
    rw [downloadGoE, downloadGo]
    cases h : attemptDownload (net url made) path fs with
    | mk fs' e =>
      cases e with
      | ok u => rfl
      | error u => exact ih fs' (w * 2) (made + 1) (waited + w)

theorem downloadGo_allFail (net : String → Nat → AttemptResult)
    (url path : String) :
    ∀ (n : Nat) (fs : FS) (w j acc : Nat),
      (∀ i, i < n → isFailAttempt (net url (j + i)) = true) →
      (downloadGo net url path n fs w j acc).success = false ∧
      (downloadGo net url path n fs w j acc).attemptsMade = j + n ∧
      (downloadGo net url path n fs w j acc).totalWait =
        acc + ∑ i in Finset.range n, w * 2 ^ i := by
  intro n
  induction n with
  | zero => intro fs w j acc _; simp [downloadGo]
  | succ n ih =>
    intro fs w j acc h
    have h0 : isFailAttempt (net url j) = true := by
      have := h 0 (Nat.succ_pos n); simpa using this
    rw [downloadGo]
    cases hr : attemptDownload (net url j) path fs with
    | mk fs' e =>
      have he : e = .error () := by
        have := attemptDownload_fail_snd (net url j) path fs h0
        rw [hr] at this; exact this
      subst he
      have ih' := ih fs' (w * 2) (j + 1) (acc + w) (fun i hi => by
        have := h (i + 1) (Nat.succ_lt_succ hi)
        have harg : j + (i + 1) = j + 1 + i := by omega
        rw [harg] at this
        exact this)
      refine ⟨ih'.1, ?_, ?_⟩
      · rw [ih'.2.1]; omega
      · rw [ih'.2.2]
        rw [Finset.sum_range_succ']
        have hcongr : ∀ i ∈ Finset.range n, w * 2 * 2 ^ i = w * 2 ^ (i + 1) :=
          fun i _ => by ring
        rw [Finset.sum_congr rfl hcongr]
        generalize (∑ i in Finset.range n, w * 2 ^ (i + 1)) = T
        ring

theorem downloadGo_allBefore (net : String → Nat → AttemptResult)
    (url path : String) :
    ∀ (n : Nat) (fs : FS) (w j acc : Nat),
      (∀ i, i < n → net url (j + i) = .errBeforeBody) →
      downloadGo net url path n fs w j acc =
        ⟨false, fs, j + n, acc + ∑ i in Finset.range n, w * 2 ^ i⟩ := by
  intro n
  induction n with
  | zero => intro fs w j acc _; simp [downloadGo]
  | succ n ih =>
    intro fs w j acc h
    have h0 : net url j = .errBeforeBody := by
      have := h 0 (Nat.succ_pos n); simpa using this
    rw [downloadGo, h0]
    show downloadGo net url path n fs (w * 2) (j + 1) (acc + w) = _
    rw [ih fs (w * 2) (j + 1) (acc + w) (fun i hi => by
      have := h (i + 1) (Nat.succ_lt_succ hi)
      have harg : j + (i + 1) = j + 1 + i := by omega
      rw [harg] at this
      exact this)]
    have hlen : j + 1 + n = j + (n + 1) := by omega
    rw [hlen]
    rw [Finset.sum_range_succ']
    have hcongr : ∀ i ∈ Finset.range n, w * 2 * 2 ^ i = w * 2 ^ (i + 1) :=
      fun i _ => by ring
    rw [Finset.sum_congr rfl hcongr]
    have : acc + w + ∑ i in Finset.range n, w * 2 ^ (i + 1) =
        acc + ((∑ i in Finset.range n, w * 2 ^ (i + 1)) + w * 2 ^ 0) := by
      generalize (∑ i in Finset.range n, w * 2 ^ (i + 1)) = T
      ring
    rw [this]

theorem downloadWarcFile_skip (net : String → Nat → AttemptResult)
    (folder durl p : String) (fs : FS)
    (h : fileExists fs (joinPath folder (basename p)) = true) :
    downloadWarcFile net folder durl p fs = ⟨.skipped, (), fs, 0⟩ := by
  unfold downloadWarcFile
  simp [h]

theorem downloadBatch_shape (net : String → Nat → AttemptResult)
    (folder durl : String) :
    ∀ (ps : List String) (fs : FS),
      (downloadBatch net folder durl ps fs).outcomes.length = ps.length ∧
      (downloadBatch net folder durl ps fs).retValues =
        List.replicate ps.length () := by
  intro ps
  induction ps with
  | nil => intro fs; exact ⟨rfl, rfl⟩
  | cons p ps ih =>
    intro fs
    simp only [downloadBatch, List.length_cons, List.replicate_succ]
    constructor
    · simp [(ih _).1]
    · simp [(ih _).2]

theorem downloadBatch_allSkip (net : String → Nat → AttemptResult)
    (folder durl : String) :
    ∀ (ps : List String) (fs : FS),
      (∀ p ∈ ps, fileExists fs (joinPath folder (basename p)) = true) →
      downloadBatch net folder durl ps fs =
        ⟨List.replicate ps.length .skipped, List.replicate ps.length (),
          fs, 0⟩ := by
  intro ps
  induction ps with
  | nil => intro fs _; rfl
  | cons p ps ih =>
    intro fs h
    simp only [downloadBatch]
    rw [downloadWarcFile_skip net folder durl p fs (h p (by simp))]
    rw [ih fs (fun q hq => h q (by simp [hq]))]
    simp [List.replicate_succ]

/-! ### Claim theorems -/

/-- Claim C1 counterexample: against an endpoint whose every attempt errors in
the middle of the body stream, `download_with_retries` exhausts its attempts
and returns `False`, yet the partially written file still exists at the
destination path — the partial attempt is not discarded, so a later
re-invocation would skip this object instead of retrying it. -/
theorem c1_partial_not_discarded_cex :
    (downloadWithRetries (fun _ _ => .errMidBody ["x"]) "u" "d/f" [] 5 10).success
        = false ∧
    fileExists
        (downloadWithRetries (fun _ _ => .errMidBody ["x"]) "u" "d/f" [] 5 10).fs
        "d/f" = true := by
  decide

/-- Claim C1 (amended): only attempts that fail before any body byte is
written (connection failure, timeout on connect, non-2xx status) leave the
destination untouched; when every attempt fails that way, after exhaustion
the filesystem is unchanged, so a destination that did not exist still does
not exist and a later re-invocation retries the object.  An error during
body streaming instead leaves the partially written file at the destination
(see the counterexample). -/
theorem c1_discard_before_body (net : String → Nat → AttemptResult)
    (url path : String) (fs : FS) (retries backoff : Nat)
    (h : ∀ i, i < retries → net url i = .errBeforeBody) :
    (downloadWithRetries net url path fs retries backoff).success = false ∧
    (downloadWithRetries net url path fs retries backoff).fs = fs ∧
    (fileExists fs path = false →
      fileExists (downloadWithRetries net url path fs retries backoff).fs path
        = false) := by
  have hgo := downloadGo_allBefore net url path retries fs backoff 0 0
    (fun i hi => by simpa using h i hi)
  unfold downloadWithRetries
  rw [hgo]
  exact ⟨rfl, rfl, fun hf => hf⟩

/-- Claim C1 witness for the amended theorem, at a concrete always-failing
endpoint whose errors all precede the body. -/
theorem c1_discard_before_body_witness :
    (downloadWithRetries (fun _ _ => .errBeforeBody) "u" "p" [] 5 10).success
        = false ∧
    (downloadWithRetries (fun _ _ => .errBeforeBody) "u" "p" [] 5 10).fs = [] ∧
    (fileExists [] "p" = false →
      fileExists (downloadWithRetries (fun _ _ => .errBeforeBody) "u" "p" [] 5 10).fs
        "p" = false) :=
  c1_discard_before_body (fun _ _ => .errBeforeBody) "u" "p" [] 5 10
    (fun _ _ => rfl)

/-- Claim C2: for an endpoint whose every request fails,
`download_with_retries` makes exactly `retries` attempts, returns `False`,
and the total time slept equals the sum of the geometric series starting at
`backoff` with ratio 2, one term per attempt. -/
theorem c2_retry_ceiling (net : String → Nat → AttemptResult)
    (url path : String) (fs : FS) (retries backoff : Nat)
    (h : ∀ i, i < retries → isFailAttempt (net url i) = true) :
    (downloadWithRetries net url path fs retries backoff).success = false ∧
    (downloadWithRetries net url path fs retries backoff).attemptsMade
        = retries ∧
    (downloadWithRetries net url path fs retries backoff).totalWait =
      ∑ i in Finset.range retries, backoff * 2 ^ i := by
  have hgo := downloadGo_allFail net url path retries fs backoff 0 0
    (fun i hi => by simpa using h i hi)
  unfold downloadWithRetries
  simpa using hgo

/-- Claim C2 witness: with the default `retries=5`, `backoff=10` against an
always-failing endpoint, five attempts are made and 10+20+40+80+160 seconds
are slept. -/
theorem c2_retry_ceiling_witness :
    (downloadWithRetries (fun _ _ => .errBeforeBody) "u" "p" [] 5 10).success
        = false ∧
    (downloadWithRetries (fun _ _ => .errBeforeBody) "u" "p" [] 5 10).attemptsMade
        = 5 ∧
    (downloadWithRetries (fun _ _ => .errBeforeBody) "u" "p" [] 5 10).totalWait =
      ∑ i in Finset.range 5, 10 * 2 ^ i :=
  c2_retry_ceiling (fun _ _ => .errBeforeBody) "u" "p" [] 5 10 (fun _ _ => rfl)

/-- Claim C4: `download_warc_file` never raises — run in the `Except` monad
in which an uncaught network exception would surface as `.error`, it always
returns `.ok` of exactly the recorded outcome, for every network behaviour,
remote path and filesystem. -/
theorem c4_fetch_one_never_raises (net : String → Nat → AttemptResult)
    (folder durl path : String) (fs : FS) :
    downloadWarcFileE net folder durl path fs =
      .ok (downloadWarcFile net folder durl path fs) := by
  unfold downloadWarcFileE downloadWarcFile downloadWithRetries
  by_cases h : fileExists fs (joinPath folder (basename path)) = true
  · simp [h]
  · simp only [Bool.not_eq_true] at h
    simp [h, downloadGoE_eq_ok]

/-- Claim C6 counterexample: two batches with different skip/fail outcomes
produce identical Python return values (a list of `None`), so the value the
batch returns carries no counts of skipped, succeeded and failed objects. -/
theorem c6_no_report_cex :
    (downloadBatch (fun _ _ => .ok ["c"]) "dl" "u" ["a/x"]
        [("dl/x", "old")]).retValues =
      (downloadBatch (fun _ _ => .errBeforeBody) "dl" "u" ["a/x"] []).retValues ∧
    (downloadBatch (fun _ _ => .ok ["c"]) "dl" "u" ["a/x"]
        [("dl/x", "old")]).outcomes ≠
      (downloadBatch (fun _ _ => .errBeforeBody) "dl" "u" ["a/x"] []).outcomes := by
  decide

/-- Claim C6 (amended): the batch runs `download_warc_file` over every
manifest entry and blocks until all complete, producing one outcome per
entry, but it returns no report of counts: every call returns `None`
(outcomes are only logged). -/
theorem c6_batch_completes_without_counts (net : String → Nat → AttemptResult)
    (folder durl : String) (ps : List String) (fs : FS) :
    (downloadBatch net folder durl ps fs).outcomes.length = ps.length ∧
    (downloadBatch net folder durl ps fs).retValues =
      List.replicate ps.length () :=
  downloadBatch_shape net folder durl ps fs

/-- Claim C3 counterexample: with an endpoint that persistently fails (the
same network behaviour on both runs), an object that failed in the first run
has no destination file, so the second run is not all-skips: it performs
nonzero network fetches for that object. -/
theorem c3_second_run_refetches_cex :
    (downloadBatch (fun _ _ => .errBeforeBody) "dl" DOWNLOAD_URL ["a/x"]
        ((downloadBatch (fun _ _ => .errBeforeBody) "dl" DOWNLOAD_URL ["a/x"]
          []).fs)).netCalls ≠ 0 := by
  decide

/-- Claim C3 (amended): a remote path whose derived destination file exists
is skipped with no network call; consequently, whenever the first run leaves
every attempted object's destination file present (in particular when every
fetch succeeded), the second run over the same manifest performs zero
network fetches, reports every object skipped, and leaves the set of local
files identical.  If an object's fetch failed without leaving a file, the
second run re-attempts it over the network instead (see the
counterexample). -/
theorem c3_skip_and_idempotent_resume (net : String → Nat → AttemptResult)
    (folder durl : String) (fs : FS) :
    (∀ p, fileExists fs (joinPath folder (basename p)) = true →
        downloadWarcFile net folder durl p fs = ⟨.skipped, (), fs, 0⟩) ∧
    (∀ ps : List String,
        (∀ p ∈ ps,
          fileExists (downloadBatch net folder durl ps fs).fs
            (joinPath folder (basename p)) = true) →
        downloadBatch net folder durl ps
            ((downloadBatch net folder durl ps fs).fs) =
          ⟨List.replicate ps.length .skipped, List.replicate ps.length (),
            (downloadBatch net folder durl ps fs).fs, 0⟩) := by
  refine ⟨fun p h => downloadWarcFile_skip net folder durl p fs h, ?_⟩
  exact fun ps h => downloadBatch_allSkip net folder durl ps _ h

/-- Claim C3 witness: after a successful first run over a one-entry manifest
from an empty directory, the destination exists, a direct skip happens on a
filesystem holding the file, and the second run is all-skips with zero
network calls and an unchanged filesystem. -/
theorem c3_skip_and_idempotent_resume_witness :
    downloadWarcFile (fun _ _ => .ok ["c"]) "dl" "u" "a/x" [("dl/x", "old")] =
      ⟨.skipped, (), [("dl/x", "old")], 0⟩ ∧
    downloadBatch (fun _ _ => .ok ["c"]) "dl" "u" ["a/x"]
        ((downloadBatch (fun _ _ => .ok ["c"]) "dl" "u" ["a/x"] []).fs) =
      ⟨List.replicate 1 .skipped, List.replicate 1 (),
        (downloadBatch (fun _ _ => .ok ["c"]) "dl" "u" ["a/x"] []).fs, 0⟩ :=
  ⟨(c3_skip_and_idempotent_resume (fun _ _ => .ok ["c"]) "dl" "u"
      [("dl/x", "old")]).1 "a/x" (by decide),
    (c3_skip_and_idempotent_resume (fun _ _ => .ok ["c"]) "dl" "u" []).2
      ["a/x"] (by decide)⟩

/-- Claim C5: with `--max-files k` and `0 < k < N`, exactly the first `k`
manifest entries, in manifest order, are the attempted paths — truncation
happens before any fetching, and the batch produces exactly `k` outcomes, so
the remaining `N - k` entries are never fetched. -/
theorem c5_truncation (net : String → Nat → AttemptResult)
    (parse : String → List String) (ym : String) (dfa : Option String)
    (fs : FS) (k : Nat)
    (hv : validYearMonth ym = true)
    (hm : fileExists fs (warcPathsLocalOf ym dfa) = true)
    (hk : 0 < k)
    (hlt : k < (parse (getFileContent fs (warcPathsLocalOf ym dfa))).length) :
    (mainRun net parse ym (some (k : Int)) dfa fs).attemptedPaths =
      (parse (getFileContent fs (warcPathsLocalOf ym dfa))).take k ∧
    (mainRun net parse ym (some (k : Int)) dfa fs).outcomes.length = k := by
  have hk0 : (k : Int) ≠ 0 := by exact_mod_cast Nat.pos_iff_ne_zero.mp hk
  have ht : truncatePaths (some (k : Int))
      (parse (getFileContent fs (warcPathsLocalOf ym dfa))) =
      (parse (getFileContent fs (warcPathsLocalOf ym dfa))).take k := by
    simp [truncatePaths, pySliceTo, hk0]
  unfold mainRun mainFetchManifest
  simp only [hv, hm, if_true]
  constructor
  · simpa using ht
  · simp only [(downloadBatch_shape _ _ _ _ _).1]
    rw [ht]
    simp [List.length_take]
    omega

/-- Claim C5 witness: on a two-entry manifest with `--max-files 1`, only the
first entry is attempted and exactly one outcome is produced. -/
theorem c5_truncation_witness :
    (mainRun (fun _ _ => .ok ["c"]) (fun _ => ["a/1", "a/2"]) "2023/09"
        (some ((1 : Nat) : Int)) (some "dl")
        [("dl/warc.paths.gz", "")]).attemptedPaths = ["a/1", "a/2"].take 1 ∧
    (mainRun (fun _ _ => .ok ["c"]) (fun _ => ["a/1", "a/2"]) "2023/09"
        (some ((1 : Nat) : Int)) (some "dl")
        [("dl/warc.paths.gz", "")]).outcomes.length = 1 :=
  c5_truncation (fun _ _ => .ok ["c"]) (fun _ => ["a/1", "a/2"]) "2023/09"
    (some "dl") [("dl/warc.paths.gz", "")] 1 (by decide) (by decide)
    (by decide) (by decide)

/-- Claim C7: the period argument is accepted, and the program proceeds,
exactly when it has length 7 with `/` at index 4; otherwise the program
exits with status 1 having touched neither the network nor the
filesystem. -/
theorem c7_year_month_validation (net : String → Nat → AttemptResult)
    (parse : String → List String) (ym : String) (mf : Option Int)
    (dfa : Option String) (fs : FS) :
    (validYearMonth ym = true ↔
      (ym.toList.length = 7 ∧ ym.toList.getD 4 ' ' = '/')) ∧
    (validYearMonth ym = false →
      mainRun net parse ym mf dfa fs = ⟨1, fs, [], [], 0, 0⟩) := by
  constructor
  · unfold validYearMonth
    constructor
    · intro h
      simp only [Bool.not_eq_true', Bool.or_eq_false_iff,
        decide_eq_false_iff_not, not_not] at h
      exact ⟨h.1.2, h.2⟩
    · intro ⟨h1, h2⟩
      simp only [Bool.not_eq_true', Bool.or_eq_false_iff,
        decide_eq_false_iff_not, not_not]
      refine ⟨⟨?_, h1⟩, h2⟩
      have hne : ym.toList ≠ [] := by
        intro hnil
        rw [hnil] at h1
        simp at h1
      simpa [List.isEmpty_iff] using hne
  · intro h
    unfold mainRun
    simp [h]

/-- Claim C7 witness: `2023-09` (no slash at index 4) is rejected with exit
status 1 and no effects. -/
theorem c7_year_month_validation_witness :
    mainRun (fun _ _ => .ok []) (fun _ => []) "2023-09" none none [] =
      ⟨1, [], [], [], 0, 0⟩ :=
  (c7_year_month_validation (fun _ _ => .ok []) (fun _ => []) "2023-09"
    none none []).2 (by decide)

/-- Claim C8: when the local manifest is absent and its fetch exhausts all
retries, the program exits with code 1 before attempting any object fetch
(no attempted paths, no outcomes, no object network calls); when the
manifest is available (already on disk, or fetched successfully), the
program finishes with exit code 0 — for every network behaviour, including
ones under which individual object fetches fail permanently. -/
theorem c8_exit_codes (net : String → Nat → AttemptResult)
    (parse : String → List String) (ym : String) (mf : Option Int)
    (dfa : Option String) (fs : FS)
    (hv : validYearMonth ym = true) :
    (fileExists fs (warcPathsLocalOf ym dfa) = false →
      (downloadWithRetries net (BASE_URL ++ warcPathsFileOf ym)
          (warcPathsLocalOf ym dfa) fs 5 10).success = false →
      mainRun net parse ym mf dfa fs =
        ⟨1, (downloadWithRetries net (BASE_URL ++ warcPathsFileOf ym)
              (warcPathsLocalOf ym dfa) fs 5 10).fs, [], [],
          (downloadWithRetries net (BASE_URL ++ warcPathsFileOf ym)
              (warcPathsLocalOf ym dfa) fs 5 10).attemptsMade, 0⟩) ∧
    ((fileExists fs (warcPathsLocalOf ym dfa) = true ∨
        (downloadWithRetries net (BASE_URL ++ warcPathsFileOf ym)
            (warcPathsLocalOf ym dfa) fs 5 10).success = true) →
      (mainRun net parse ym mf dfa fs).exitCode = 0) := by
  constructor
  · intro hne hfail
    unfold mainRun mainFetchManifest
    simp [hv, hne, hfail]
  · intro hok
    unfold mainRun mainFetchManifest
    rcases hok with hex | hsucc
    · simp [hv, hex]
    · by_cases hex : fileExists fs (warcPathsLocalOf ym dfa) = true
      · simp [hv, hex]
      · simp only [Bool.not_eq_true] at hex
        simp [hv, hex, hsucc]

/-- Claim C8 witness: a wholly failing network makes the program exit 1 with
nothing attempted, while a network serving only the manifest (every object
fetch failing permanently) still ends with exit code 0. -/
theorem c8_exit_codes_witness :
    mainRun (fun _ _ => .errBeforeBody) (fun _ => []) "2023/09" none
        (some "dl") [] =
      ⟨1, (downloadWithRetries (fun _ _ => .errBeforeBody)
            (BASE_URL ++ warcPathsFileOf "2023/09")
            (warcPathsLocalOf "2023/09" (some "dl")) [] 5 10).fs, [], [],
        (downloadWithRetries (fun _ _ => .errBeforeBody)
            (BASE_URL ++ warcPathsFileOf "2023/09")
            (warcPathsLocalOf "2023/09" (some "dl")) [] 5 10).attemptsMade,
        0⟩ ∧
    (mainRun
        (fun u _ =>
          if u = "https://data.commoncrawl.org/crawl-data/CC-NEWS/2023/09/warc.paths.gz"
          then .ok ["m"] else .errBeforeBody)
        (fun _ => ["a/x"]) "2023/09" none (some "dl") []).exitCode = 0 :=
  ⟨(c8_exit_codes (fun _ _ => .errBeforeBody) (fun _ => []) "2023/09" none
      (some "dl") [] (by decide)).1 (by decide) (by decide),
    (c8_exit_codes
      (fun u _ =>
        if u = "https://data.commoncrawl.org/crawl-data/CC-NEWS/2023/09/warc.paths.gz"
        then .ok ["m"] else .errBeforeBody)
      (fun _ => ["a/x"]) "2023/09" none (some "dl") [] (by decide)).2
      (Or.inr (by decide))⟩

/-- Claim C9: whenever the program completes normally (exit code 0,
including runs in which some objects failed), the local manifest file is no
longer present in the final filesystem — it is deleted on completion. -/
theorem c9_manifest_deleted (net : String → Nat → AttemptResult)
    (parse : String → List String) (ym : String) (mf : Option Int)
    (dfa : Option String) (fs : FS)
    (h : (mainRun net parse ym mf dfa fs).exitCode = 0) :
    fileExists (mainRun net parse ym mf dfa fs).fs (warcPathsLocalOf ym dfa)
      = false := by
  unfold mainRun at h ⊢
  by_cases hv : validYearMonth ym = true
  · simp only [hv, if_true] at h ⊢
    by_cases hm : (mainFetchManifest net ym dfa fs).ok = true
    · simp only [hm, if_true] at h ⊢
      split
      · exact fileExists_removeFile _ _
      · rename_i hex
        simpa using hex
    · simp [hm] at h
  · simp [hv] at h

/-- Claim C9 witness: a successful run over an empty manifest downloads the
manifest file into the destination directory and removes it at the end. -/
theorem c9_manifest_deleted_witness :
    fileExists
      (mainRun (fun _ _ => .ok ["m"]) (fun _ => []) "2023/09" none
        (some "dl") []).fs
      (warcPathsLocalOf "2023/09" (some "dl")) = false :=
  c9_manifest_deleted (fun _ _ => .ok ["m"]) (fun _ => []) "2023/09" none
    (some "dl") [] (by decide)

/-- Claim C10: `--max-files 0` is falsy in the truncation guard, so the cap
is ignored — the manifest is not truncated to zero entries and the program
behaves exactly as if `--max-files` had not been given. -/
theorem c10_max_files_zero (net : String → Nat → AttemptResult)
    (parse : String → List String) (ym : String) (dfa : Option String)
    (fs : FS) :
    mainRun net parse ym (some 0) dfa fs = mainRun net parse ym none dfa fs ∧
    ∀ ps : List String, truncatePaths (some 0) ps = ps := by
  have ht : ∀ ps : List String,
      truncatePaths (some 0) ps = truncatePaths none ps := by
    intro ps; simp [truncatePaths]
  refine ⟨?_, fun ps => by simp [truncatePaths]⟩
  unfold mainRun
  simp only [ht]
